import Mathlib

/-!
Shallow embedding of the labrat wetlab calculation engine
(src/labrat/wetlab/dilutions.py, pcr.py, buffers.py) and proofs of the
spec claims about it.  Python floats are idealised as exact rationals;
Python `raise ValueError(msg)` / `IndexError` become the `PyError`
type below, and fallible functions return `Except PyError _`.
-/

namespace Labrat

/-- Python exceptions observable from the embedded code: `ValueError msg`
for explicit `raise ValueError(...)`, `indexError` for an out-of-range
list index, `zeroDivisionError` for a division by zero. -/
inductive PyError where
  | valueError (msg : String)
  | indexError
  | zeroDivisionError
deriving DecidableEq, Repr

deriving instance DecidableEq for Except

/-! ## dilutions.py -/

/-- Python `round(x, 2)` tie-breaking core: round-half-to-even of a
rational to the nearest integer (banker's rounding, as Python's
built-in `round` uses). -/
def pyRoundHalfEven (x : ℚ) : ℤ :=
  if x - Rat.floor x < 1/2 then Rat.floor x
  else if 1/2 < x - Rat.floor x then Rat.floor x + 1
  else if Rat.floor x % 2 = 0 then Rat.floor x else Rat.floor x + 1

/-- Python `round(x, 2)`: round to 2 decimal places, half to even. -/
def pyRound2 (x : ℚ) : ℚ := (pyRoundHalfEven (100 * x) : ℚ) / 100

/-- Result dict of `calculate_dilution` (dilutions.py lines 180-185). -/
structure DilutionResult where
  stock_volume : ℚ
  diluent_volume : ℚ
  final_volume : ℚ
  dilution_factor : ℚ
deriving DecidableEq, Repr

/-- `calculate_dilution` (dilutions.py lines 150-185).  Validates via
C1V1 = C2V2 and returns the volumes, rounded to 2 decimal places
inside the function exactly as the source does. -/
def calculate_dilution (initial_conc final_conc final_volume : ℚ) :
    Except PyError DilutionResult :=
  if final_conc > initial_conc then
    .error (.valueError ("Final concentration cannot exceed initial concentration"))
  else if initial_conc ≤ 0 ∨ final_conc ≤ 0 ∨ final_volume ≤ 0 then
    .error (.valueError ("All values must be positive"))
  else
    let stock_volume := (final_conc * final_volume) / initial_conc
    let diluent_volume := final_volume - stock_volume
    .ok ⟨pyRound2 stock_volume, pyRound2 diluent_volume, final_volume,
      initial_conc / final_conc⟩

/-- The concentration tail built by the loop in `serial_dilution`
(dilutions.py lines 120-123): repeatedly divide the running last
concentration by `factor`. -/
def serialConcsAux (factor : ℚ) : ℚ → ℕ → List ℚ
  | _, 0 => []
  | last, n + 1 => (last / factor) :: serialConcsAux factor (last / factor) n

/-- The full `concentrations` list of `serial_dilution`: the stock
followed by `n` successive divisions by `factor`. -/
def serialConcs (initial_concentration factor : ℚ) (n : ℕ) : List ℚ :=
  initial_concentration :: serialConcsAux factor initial_concentration n

/-- `DilutionSeries` dataclass (dilutions.py lines 14-73); the
`volumes` dict is flattened into its five fields. -/
structure DilutionSeries where
  initial_concentration : ℚ
  concentration_unit : String
  dilution_factor : ℚ
  num_dilutions : ℕ
  transfer_volume : ℚ
  final_volume : ℚ
  concentrations : List ℚ
  transfer_per_step : ℚ
  diluent_per_step : ℚ
  total_diluent_needed : ℚ
  total_transfers : ℚ
  stock_volume_needed : ℚ
deriving DecidableEq, Repr

/-- `serial_dilution` (dilutions.py lines 76-147).  The number of
dilution steps is a natural number (Python's `range` over a negative
int is empty, so nonnegative steps model all effective inputs).
After the two validations the source runs
`actual_factor = final_volume / transfer_volume` (line 112)
unconditionally, which raises `ZeroDivisionError` when
`transfer_volume == 0`; that is the guard below.  When the division
succeeds, the locals of the adjust block (lines 110-117) are never
read again — `concentrations` divides by the nominal `factor` and
`diluent_volume` is recomputed at line 126 — so past the guard the
block has no observable effect.  (Line 111 divides by `factor > 1`
and line 117 by the already-nonzero `transfer_volume`; neither can
raise.) -/
def serial_dilution (initial_concentration factor : ℚ) (dilutions : ℕ)
    (transfer_volume final_volume : ℚ) (concentration_unit : String) :
    Except PyError DilutionSeries :=
  if factor ≤ 1 then
    .error (.valueError ("Dilution factor must be greater than 1"))
  else if transfer_volume ≥ final_volume then
    .error (.valueError ("Transfer volume must be less than final volume"))
  else if transfer_volume = 0 then
    .error .zeroDivisionError
  else
    let concentrations := serialConcs initial_concentration factor dilutions
    let diluent_volume := final_volume - transfer_volume
    .ok ⟨initial_concentration, concentration_unit, factor, dilutions,
      transfer_volume, final_volume, concentrations,
      transfer_volume, diluent_volume,
      diluent_volume * (dilutions : ℚ), transfer_volume * (dilutions : ℚ),
      transfer_volume⟩

/-! ## pcr.py : master mix -/

/-- One entry of the `components` dict of a finished master mix
(pcr.py): name, per-reaction volume, final-concentration label, total
volume. -/
structure MMEntry where
  name : String
  per_reaction : ℚ
  final_conc : String
  total_volume : ℚ
deriving DecidableEq, Repr

/-- `MasterMix` dataclass (pcr.py lines 14-35).  The `components`
dict keeps Python insertion order, modelled as a list. -/
structure MasterMix where
  reactions : ℤ
  volume_per_reaction : ℚ
  components : List MMEntry
  total_volume : ℚ
  extra_percent : ℚ
deriving DecidableEq, Repr

/-- The fixed component table chosen by `polymerase_type`
(pcr.py lines 92-110); `none` models the `else: raise` branch. -/
def mmBase (volume : ℚ) (polymerase_type : String) :
    Option (List (String × ℚ × String)) :=
  if polymerase_type = "taq" then
    some [("10X Buffer", volume * 0.1, "1X"),
          ("dNTPs (10 mM each)", volume * 0.02, "200 µM"),
          ("Forward Primer (10 µM)", volume * 0.02, "0.2 µM"),
          ("Reverse Primer (10 µM)", volume * 0.02, "0.2 µM"),
          ("Taq Polymerase (5 U/µL)", 0.25, "1.25 U"),
          ("MgCl2 (25 mM)", volume * 0.06, "1.5 mM")]
  else if polymerase_type = "high_fidelity" then
    some [("5X HF Buffer", volume * 0.2, "1X"),
          ("dNTPs (10 mM each)", volume * 0.02, "200 µM"),
          ("Forward Primer (10 µM)", volume * 0.02, "0.2 µM"),
          ("Reverse Primer (10 µM)", volume * 0.02, "0.2 µM"),
          ("HF Polymerase (2 U/µL)", 0.5, "1 U")]
  else none

/-- Template addition (pcr.py lines 113-114). -/
def mmWithTemplate (comps : List (String × ℚ × String)) (include_template : Bool) :
    List (String × ℚ × String) :=
  if include_template then comps ++ [("Template DNA", 1.0, "variable")] else comps

/-- `used_volume` (pcr.py line 117): sum of per-reaction volumes. -/
def mmUsedVolume (comps : List (String × ℚ × String)) : ℚ :=
  (comps.map (fun c => c.2.1)).sum

/-- Tail of `calculate_mastermix` after the component table is
selected (pcr.py lines 113-140): add the template, compute the water
residual (`used_volume`, `water_volume` — the source's local
variables are inlined here), fail if negative, else append the water
component and scale every component by
`total_reactions = reactions * (1 + extra_percent/100)`.  The
over-budget `ValueError` message interpolates float-formatted volumes
in the source; the message text (display only) is abridged here, the
error kind and trigger are exact. -/
def mmFinish (reactions : ℤ) (volume extra_percent : ℚ)
    (include_template : Bool) (comps0 : List (String × ℚ × String)) :
    Except PyError MasterMix :=
  if volume - mmUsedVolume (mmWithTemplate comps0 include_template) < 0 then
    .error (.valueError ("Component volumes exceed reaction volume"))
  else
    .ok ⟨reactions, volume,
      (mmWithTemplate comps0 include_template
          ++ [("Water",
               volume - mmUsedVolume (mmWithTemplate comps0 include_template),
               "-")]).map
        (fun c => ⟨c.1, c.2.1, c.2.2,
          c.2.1 * ((reactions : ℚ) * (1 + extra_percent / 100))⟩),
      volume * ((reactions : ℚ) * (1 + extra_percent / 100)), extra_percent⟩

/-- `calculate_mastermix` (pcr.py lines 63-140). -/
def calculate_mastermix (reactions : ℤ) (volume extra_percent : ℚ)
    (polymerase_type : String) (include_template : Bool) :
    Except PyError MasterMix :=
  match mmBase volume polymerase_type with
  | none => .error (.valueError ("Unknown polymerase type: " ++ polymerase_type))
  | some comps0 => mmFinish reactions volume extra_percent include_template comps0

/-! ## buffers.py -/

/-- One component of a buffer recipe: amount per liter, unit label,
optional molecular weight (buffers.py catalog entries). -/
structure BufferComponent where
  amount : ℚ
  unit : String
  mw : Option ℚ
deriving DecidableEq, Repr

/-- `BufferRecipe` dataclass (buffers.py lines 14-79); `components`
keeps dict insertion order as a list. -/
structure BufferRecipe where
  name : String
  components : List (String × BufferComponent)
  ph : Option ℚ
  notes : List String
deriving DecidableEq, Repr

/-- A component of a scaled recipe as returned by
`BufferRecipe.scale`: amount and unit. -/
structure ScaledComponent where
  amount : ℚ
  unit : String
deriving DecidableEq, Repr

/-- `BufferRecipe.scale` (buffers.py lines 54-70): multiply every
per-liter amount by the target volume in liters. -/
def BufferRecipe.scale (r : BufferRecipe) (volume_liters : ℚ) :
    List (String × ScaledComponent) :=
  r.components.map (fun c => (c.1, ⟨c.2.amount * volume_liters, c.2.unit⟩))

/-- Component-wise sum of two scaled-component maps over the same
recipe (used to state the linearity property of `scale`). -/
def addScaled (x y : List (String × ScaledComponent)) :
    List (String × ScaledComponent) :=
  List.zipWith (fun a b => (a.1, ⟨a.2.amount + b.2.amount, a.2.unit⟩)) x y

/-- `COMMON_BUFFERS` catalog (buffers.py lines 83-232), verbatim. -/
def COMMON_BUFFERS : List (String × BufferRecipe) :=
  [("PBS",
    ⟨"Phosphate Buffered Saline (PBS) 1X",
     [("NaCl", ⟨8.0, "g", some 58.44⟩),
      ("KCl", ⟨0.2, "g", some 74.55⟩),
      ("Na2HPO4", ⟨1.44, "g", some 141.96⟩),
      ("KH2PO4", ⟨0.24, "g", some 136.09⟩)],
     some 7.4,
     ["Dissolve in 800 mL of distilled water",
      "Adjust pH to 7.4 with HCl",
      "Bring volume to 1 L with distilled water",
      "Autoclave for sterilization"]⟩),
   ("PBS_10X",
    ⟨"Phosphate Buffered Saline (PBS) 10X",
     [("NaCl", ⟨80.0, "g", some 58.44⟩),
      ("KCl", ⟨2.0, "g", some 74.55⟩),
      ("Na2HPO4", ⟨14.4, "g", some 141.96⟩),
      ("KH2PO4", ⟨2.4, "g", some 136.09⟩)],
     some 7.4,
     ["Dissolve in 800 mL of distilled water",
      "Adjust pH to 7.4 with HCl",
      "Bring volume to 1 L with distilled water",
      "Dilute 1:10 for working solution"]⟩),
   ("TBS",
    ⟨"Tris Buffered Saline (TBS) 1X",
     [("Tris base", ⟨2.42, "g", some 121.14⟩),
      ("NaCl", ⟨8.0, "g", some 58.44⟩)],
     some 7.6,
     ["Dissolve in 800 mL of distilled water",
      "Adjust pH to 7.6 with HCl",
      "Bring volume to 1 L with distilled water"]⟩),
   ("TBS_10X",
    ⟨"Tris Buffered Saline (TBS) 10X",
     [("Tris base", ⟨24.2, "g", some 121.14⟩),
      ("NaCl", ⟨80.0, "g", some 58.44⟩)],
     some 7.6,
     ["Dissolve in 800 mL of distilled water",
      "Adjust pH to 7.6 with HCl",
      "Bring volume to 1 L with distilled water"]⟩),
   ("TBST",
    ⟨"Tris Buffered Saline with Tween-20 (TBST)",
     [("Tris base", ⟨2.42, "g", some 121.14⟩),
      ("NaCl", ⟨8.0, "g", some 58.44⟩),
      ("Tween-20", ⟨1.0, "mL", none⟩)],
     some 7.6,
     ["Dissolve Tris and NaCl in 800 mL of distilled water",
      "Adjust pH to 7.6 with HCl",
      "Add Tween-20 and mix gently",
      "Bring volume to 1 L with distilled water"]⟩),
   ("TE",
    ⟨"Tris-EDTA (TE) Buffer",
     [("Tris-HCl", ⟨1.21, "g", some 157.6⟩),
      ("EDTA", ⟨0.37, "g", some 372.24⟩)],
     some 8.0,
     ["Final concentration: 10 mM Tris, 1 mM EDTA",
      "Dissolve in 800 mL of distilled water",
      "Adjust pH to 8.0 with HCl",
      "Bring volume to 1 L with distilled water",
      "Autoclave or filter sterilize"]⟩),
   ("TAE_50X",
    ⟨"Tris-Acetate-EDTA (TAE) 50X",
     [("Tris base", ⟨242.0, "g", some 121.14⟩),
      ("Glacial acetic acid", ⟨57.1, "mL", some 60.05⟩),
      ("EDTA (0.5M, pH 8.0)", ⟨100.0, "mL", some 372.24⟩)],
     some 8.3,
     ["Add Tris to 600 mL distilled water",
      "Add glacial acetic acid and EDTA solution",
      "Bring volume to 1 L with distilled water",
      "Dilute 1:50 for working solution (1X TAE)"]⟩),
   ("TBE_10X",
    ⟨"Tris-Borate-EDTA (TBE) 10X",
     [("Tris base", ⟨108.0, "g", some 121.14⟩),
      ("Boric acid", ⟨55.0, "g", some 61.83⟩),
      ("EDTA", ⟨7.44, "g", some 372.24⟩)],
     some 8.3,
     ["Dissolve in 800 mL of distilled water",
      "Bring volume to 1 L with distilled water",
      "No pH adjustment needed",
      "Dilute 1:10 for working solution"]⟩),
   ("RIPA",
    ⟨"RIPA Lysis Buffer",
     [("NaCl", ⟨8.76, "g", some 58.44⟩),
      ("Tris-HCl (1M, pH 8.0)", ⟨50.0, "mL", some 157.6⟩),
      ("NP-40", ⟨10.0, "mL", none⟩),
      ("Sodium deoxycholate", ⟨5.0, "g", some 414.55⟩),
      ("SDS", ⟨1.0, "g", some 288.38⟩)],
     some 8.0,
     ["Final: 150 mM NaCl, 50 mM Tris, 1% NP-40, 0.5% deoxycholate, 0.1% SDS",
      "Add protease inhibitors fresh before use",
      "Keep on ice during use"]⟩),
   ("LOADING_6X",
    ⟨"6X DNA Loading Buffer",
     [("Bromophenol blue", ⟨0.25, "g", some 691.9⟩),
      ("Xylene cyanol FF", ⟨0.25, "g", some 538.6⟩),
      ("Glycerol", ⟨300.0, "mL", some 92.09⟩)],
     none,
     ["Mix components and bring to 1 L with distilled water",
      "Store at 4°C",
      "Use 1 µL per 5 µL of DNA sample"]⟩)]

/-- `get_buffer_recipe` (buffers.py lines 235-259): uppercase the
name, look it up in the catalog (Python dict membership + access
modelled by association-list lookup), and on a miss raise a
`ValueError` listing every available buffer. -/
def get_buffer_recipe (buffer_name : String) : Except PyError BufferRecipe :=
  match COMMON_BUFFERS.lookup buffer_name.toUpper with
  | some r => .ok r
  | none => .error (.valueError ("Unknown buffer: " ++ buffer_name
      ++ ". Available buffers: "
      ++ String.intercalate (", ") (COMMON_BUFFERS.map Prod.fst)))

/-! ## pcr.py : qPCR plate layout -/

/-- One value of the `well_assignments` dict
(pcr.py lines 322-327 and 339-344). -/
structure WellInfo where
  sample : String
  gene : String
  replicate : ℕ
  type : String
deriving DecidableEq, Repr

/-- Python dict insert: update in place if the key exists (keeping
its position), else append at the end. -/
def dictInsert (k : String) (v : WellInfo) :
    List (String × WellInfo) → List (String × WellInfo)
  | [] => [(k, v)]
  | (k', v') :: rest =>
      if k' = k then (k, v) :: rest else (k', v') :: dictInsert k v rest

/-- Mutable loop state of `generate_qpcr_plate_layout`:
`current_row`, `current_col` and the `well_assignments` dict.  The 2-D
`layout` list of display strings is not materialised; its index-bound
behaviour (Python `IndexError` on an out-of-range write) is modelled
at each write site. -/
structure AllocState where
  row : ℕ
  col : ℕ
  assignments : List (String × WellInfo)
deriving DecidableEq, Repr

/-- `well_id` string (pcr.py lines 320 and 337): row label character
followed by the 1-based column number.  Callers establish
`row < labels.length`, so the `getD` default is unreachable. -/
def wellId (labels : List Char) (row col : ℕ) : String :=
  String.mk [labels.getD row ('?')] ++ toString (col + 1)

/-- The row-wrap at the top of each placement iteration
(pcr.py lines 313-315 and 333-335): when the row cursor has reached
`rows`, reset it to 0 and advance the column. -/
def wrapRow (rows : ℕ) (st : AllocState) : AllocState :=
  if st.row ≥ rows then ⟨0, st.col + 1, st.assignments⟩ else st

/-- One iteration of the sample-placement loop
(pcr.py lines 312-328): wrap the row cursor, then the explicit
defensive column check (`raise ValueError("Exceeded plate capacity")`),
then the well write.  The row-label and layout indexings are in range
whenever Python's would be; an out-of-range one is `indexError`. -/
def placeSample (rows cols : ℕ) (labels : List Char) (sample gene : String)
    (rep : ℕ) (st : AllocState) : Except PyError AllocState :=
  if (wrapRow rows st).col ≥ cols then
    .error (.valueError ("Exceeded plate capacity"))
  else if (wrapRow rows st).row ≥ rows then .error .indexError
  else
    .ok ⟨(wrapRow rows st).row + 1, (wrapRow rows st).col,
      dictInsert (wellId labels (wrapRow rows st).row (wrapRow rows st).col)
        ⟨sample, gene, rep + 1, "sample"⟩ (wrapRow rows st).assignments⟩

/-- One iteration of the NTC-placement loop (pcr.py lines 332-345):
wrap the row cursor and write the well.  Unlike the sample loop the
source has no column check here, so a column at or past `cols` hits
Python's `IndexError` from `layout[current_row][current_col]`. -/
def placeNtc (rows cols : ℕ) (labels : List Char) (gene : String)
    (rep : ℕ) (st : AllocState) : Except PyError AllocState :=
  if (wrapRow rows st).row ≥ rows then .error .indexError
  else if (wrapRow rows st).col ≥ cols then .error .indexError
  else
    .ok ⟨(wrapRow rows st).row + 1, (wrapRow rows st).col,
      dictInsert (wellId labels (wrapRow rows st).row (wrapRow rows st).col)
        ⟨"NTC", gene, rep + 1, "ntc"⟩ (wrapRow rows st).assignments⟩

/-- The `for rep in range(replicates)` sample loop for one sample
(pcr.py lines 312-328). -/
def placeSampleBlock (rows cols : ℕ) (labels : List Char) (gene : String)
    (replicates : ℕ) (st : AllocState) (sample : String) :
    Except PyError AllocState :=
  (List.range replicates).foldlM
    (fun s rep => placeSample rows cols labels sample gene rep s) st

/-- The `if include_ntc:` NTC block of one gene
(pcr.py lines 331-345). -/
def ntcBlock (rows cols : ℕ) (labels : List Char) (gene : String)
    (replicates : ℕ) (include_ntc : Bool) (st : AllocState) :
    Except PyError AllocState :=
  if include_ntc then
    (List.range replicates).foldlM
      (fun s rep => placeNtc rows cols labels gene rep s) st
  else pure st

/-- The body of the `for gene in genes` loop (pcr.py lines 309-349):
all samples, then the NTC block if requested, then reset the row and
advance the column for the next gene. -/
def placeGene (rows cols : ℕ) (labels : List Char) (samples : List String)
    (replicates : ℕ) (include_ntc : Bool) (st : AllocState) (gene : String) :
    Except PyError AllocState := do
  let st1 ← samples.foldlM (placeSampleBlock rows cols labels gene replicates) st
  let st2 ← ntcBlock rows cols labels gene replicates include_ntc st1
  pure ⟨0, st2.col + 1, st2.assignments⟩

/-- Plate geometry table (pcr.py lines 278-285). -/
def plateDims (plate_size : ℕ) : Option (ℕ × ℕ × List Char) :=
  if plate_size = 96 then
    some (8, 12, ['A', 'B', 'C', 'D', 'E', 'F', 'G', 'H'])
  else if plate_size = 384 then
    some (16, 24, ['A', 'B', 'C', 'D', 'E', 'F', 'G', 'H',
                   'I', 'J', 'K', 'L', 'M', 'N', 'O', 'P'])
  else none

/-- The capacity pre-check error message (pcr.py lines 296-299). -/
def capacityMsg (needed available : ℕ) : String :=
  "Not enough wells: need " ++ toString needed ++ ", have "
    ++ toString available ++ ". Consider reducing replicates or using a larger plate."

/-- `total_wells_needed` (pcr.py lines 288-292). -/
def totalWellsNeeded (samples genes : List String) (replicates : ℕ)
    (include_ntc : Bool) : ℕ :=
  (samples.length * replicates + (if include_ntc then replicates else 0))
    * genes.length

/-- Result of `generate_qpcr_plate_layout` (pcr.py lines 351-367):
the well-assignment dict plus the summary fields.  The `layout` grid
and the `utilization` percentage string are display-only renderings of
these fields and are not materialised. -/
structure PlateLayout where
  well_assignments : List (String × WellInfo)
  total_samples : ℕ
  total_genes : ℕ
  replicates : ℕ
  include_ntc : Bool
  wells_used : ℕ
  wells_available : ℕ
  row_labels : List Char
  cols : ℕ
deriving DecidableEq, Repr

/-- Body of `generate_qpcr_plate_layout` once the geometry is fixed
(pcr.py lines 287-367): capacity pre-check, then the gene-block
placement loop; an exception raised inside the loop propagates, a
normal exit packages the summary. -/
def plateAlloc (samples genes : List String) (replicates : ℕ)
    (include_ntc : Bool) (rows cols : ℕ) (row_labels : List Char) :
    Except PyError PlateLayout :=
  if totalWellsNeeded samples genes replicates include_ntc > rows * cols then
    .error (.valueError (capacityMsg
      (totalWellsNeeded samples genes replicates include_ntc) (rows * cols)))
  else
    (genes.foldlM
        (placeGene rows cols row_labels samples replicates include_ntc)
        ⟨0, 0, []⟩).map
      (fun st =>
        ⟨st.assignments, samples.length, genes.length, replicates,
          include_ntc, st.assignments.length, rows * cols, row_labels, cols⟩)

/-- `generate_qpcr_plate_layout` (pcr.py lines 247-367): resolve the
plate geometry, run the capacity pre-check, then place every gene
block. -/
def generate_qpcr_plate_layout (samples genes : List String) (replicates : ℕ)
    (include_ntc : Bool) (plate_size : ℕ) : Except PyError PlateLayout :=
  match plateDims plate_size with
  | none => .error (.valueError ("Plate size must be 96 or 384"))
  | some (rows, cols, row_labels) =>
    plateAlloc samples genes replicates include_ntc rows cols row_labels

/-! ## Helper lemmas -/

lemma ratFloor_eq_intFloor (x : ℚ) : Rat.floor x = ⌊x⌋ := rfl

lemma pyRoundHalfEven_abs (x : ℚ) : |(pyRoundHalfEven x : ℚ) - x| ≤ 1/2 := by
  have h1 : ((⌊x⌋ : ℤ) : ℚ) ≤ x := Int.floor_le x
  have h2 : x < (⌊x⌋ : ℚ) + 1 := Int.lt_floor_add_one x
  unfold pyRoundHalfEven
  simp only [ratFloor_eq_intFloor]
  split_ifs with hf1 hf2 hpar <;> rw [abs_le] <;> push_cast <;>
    constructor <;> linarith

lemma pyRound2_abs (x : ℚ) : |pyRound2 x - x| ≤ 1/200 := by
  have h := pyRoundHalfEven_abs (100 * x)
  rw [abs_le] at h ⊢
  unfold pyRound2
  constructor <;> linarith [h.1, h.2]

lemma serialConcsAux_length (f : ℚ) (last : ℚ) (n : ℕ) :
    (serialConcsAux f last n).length = n := by
  induction n generalizing last with
  | zero => rfl
  | succ n ih => simp [serialConcsAux, ih]

lemma serialConcsAux_get (f : ℚ) :
    ∀ (n i : ℕ) (last : ℚ), i < n →
      (serialConcsAux f last n).get? i = some (last / f ^ (i + 1)) := by
  intro n
  induction n with
  | zero => intro i last h; omega
  | succ n ih =>
    intro i last h
    cases i with
    | zero => simp [serialConcsAux, pow_one]
    | succ i =>
      simp only [serialConcsAux, List.get?_cons_succ]
      rw [ih i (last / f) (by omega)]
      congr 1
      rw [div_div, ← pow_succ']

lemma serialConcs_get (init f : ℚ) (n i : ℕ) (h : i ≤ n) :
    (serialConcs init f n).get? i = some (init / f ^ i) := by
  cases i with
  | zero => simp [serialConcs]
  | succ i =>
    simp only [serialConcs, List.get?_cons_succ]
    exact serialConcsAux_get f n i init (by omega)

/-! ## Claim theorems : dilutions -/

/-- Claim C9: `calculate_dilution` succeeds exactly when all four
preconditions `0 < initial_conc`, `0 < final_conc`,
`0 < final_volume`, `final_conc ≤ initial_conc` hold, and every
failure is the `ValueError` the spec maps to `InvalidDilutionRequest`. -/
theorem calculate_dilution_validation (ic fc fv : ℚ) :
    ((∃ r, calculate_dilution ic fc fv = .ok r) ↔
      (0 < ic ∧ 0 < fc ∧ 0 < fv ∧ fc ≤ ic))
  ∧ ((∃ m, calculate_dilution ic fc fv = .error (.valueError m)) ↔
      ¬(0 < ic ∧ 0 < fc ∧ 0 < fv ∧ fc ≤ ic)) := by
  unfold calculate_dilution
  split_ifs with h1 h2
  · constructor
    · constructor
      · rintro ⟨r, hr⟩; cases hr
      · rintro ⟨-, -, -, h4⟩; exact absurd h1 (not_lt.mpr h4)
    · constructor
      · rintro - ⟨-, -, -, h4⟩; exact absurd h1 (not_lt.mpr h4)
      · intro _; exact ⟨_, rfl⟩
  · constructor
    · constructor
      · rintro ⟨r, hr⟩; cases hr
      · rintro ⟨g1, g2, g3, -⟩
        rcases h2 with h2 | h2 | h2 <;> linarith
    · constructor
      · rintro - ⟨g1, g2, g3, -⟩
        rcases h2 with h2 | h2 | h2 <;> linarith
      · intro _; exact ⟨_, rfl⟩
  · push_neg at h2
    constructor
    · constructor
      · intro _; exact ⟨h2.1, h2.2.1, h2.2.2, not_lt.mp h1⟩
      · intro _; exact ⟨_, rfl⟩
    · constructor
      · rintro ⟨m, hm⟩; cases hm
      · intro hneg; exact absurd ⟨h2.1, h2.2.1, h2.2.2, not_lt.mp h1⟩ hneg

/-- Claim C2, counterexample: at `(initial, final, volume) =
(2, 1, 0.005)` the calculator rounds both volumes to `0.0` inside the
call (Python `round(0.0025, 2) = 0.0`), so the returned
`stock_volume + diluent_volume = 0` is not the requested volume
`0.005`: the rounding is not confined to the formatting boundary. -/
theorem dilution_rounding_cex :
    calculate_dilution 2 1 (1/200) = .ok ⟨0, 0, 1/200, 2⟩
    ∧ (0 : ℚ) + 0 ≠ 1/200 := by
  constructor
  · unfold calculate_dilution
    rw [if_neg (by norm_num), if_neg (by norm_num)]
    norm_num [pyRound2, pyRoundHalfEven, ratFloor_eq_intFloor,
      DilutionResult.mk.injEq]
  · norm_num

/-- Claim C2, amended: `calculate_dilution` rounds `stock_volume` and
`diluent_volume` to 2 decimal places inside the calculator, so for
all valid inputs the returned `stock_volume + diluent_volume` equals
`volume` only up to the rounding error, which is at most `0.01`. -/
theorem dilution_sum_amended (ic fc fv : ℚ) (h1 : 0 < ic) (h2 : 0 < fc)
    (h3 : 0 < fv) (h4 : fc ≤ ic) (r : DilutionResult)
    (hr : calculate_dilution ic fc fv = .ok r) :
    |r.stock_volume + r.diluent_volume - fv| ≤ 1/100 := by
  unfold calculate_dilution at hr
  rw [if_neg (not_lt.mpr h4), if_neg (by push_neg; exact ⟨h1, h2, h3⟩)] at hr
  rw [Except.ok.injEq] at hr
  subst hr
  have hs := pyRound2_abs ((fc * fv) / ic)
  have hd := pyRound2_abs (fv - (fc * fv) / ic)
  rw [abs_le] at hs hd ⊢
  constructor <;> [linarith [hs.1, hd.1]; linarith [hs.2, hd.2]]

/-- Witness for the amended claim C2 at `dilute(100, 10, 1000)`. -/
theorem dilution_sum_amended_w : |(100 : ℚ) + 900 - 1000| ≤ 1/100 :=
  dilution_sum_amended 100 10 1000 (by norm_num) (by norm_num) (by norm_num)
    (by norm_num) ⟨100, 900, 1000, 10⟩ (by
      unfold calculate_dilution
      rw [if_neg (by norm_num), if_neg (by norm_num)]
      norm_num [pyRound2, pyRoundHalfEven, ratFloor_eq_intFloor,
        DilutionResult.mk.injEq])

/-- Claim C5, counterexample: `factor = 10 > 1` and
`transfer_volume = 0 < 1000 = final_volume_per_tube` satisfy the
claim's validity conditions, yet the source raises
`ZeroDivisionError` at `final_volume / transfer_volume`
(dilutions.py line 112) instead of returning a series. -/
theorem serial_dilution_zero_transfer_cex :
    serial_dilution 100 10 6 0 1000 ("uM") = .error .zeroDivisionError
    ∧ (serial_dilution 100 10 6 0 1000 ("uM")).toOption.isSome ≠ true := by
  constructor
  · unfold serial_dilution
    rw [if_neg (by norm_num), if_neg (by norm_num), if_pos rfl]
  · unfold serial_dilution
    rw [if_neg (by norm_num), if_neg (by norm_num), if_pos rfl]
    simp [Except.toOption]

/-- Claim C5, amended: for any serial dilution input with
`factor > 1`, `transfer_volume < final_volume_per_tube` and a nonzero
`transfer_volume` (a zero transfer volume passes both validations but
crashes with `ZeroDivisionError` at dilutions.py line 112), the call
succeeds, the `concentrations` list has `num_steps + 1` entries
starting at the initial concentration, and each entry is the previous
one divided by the requested nominal `factor` (the volume-implied
ratio plays no role: the statement holds for every such
transfer/tube volume pair). -/
theorem serial_dilution_spec (init f : ℚ) (n : ℕ) (tv fv : ℚ) (u : String)
    (hf : 1 < f) (ht : tv < fv) (htz : tv ≠ 0) :
    (serial_dilution init f n tv fv u).toOption.isSome = true
  ∧ ∀ s, serial_dilution init f n tv fv u = .ok s →
      s.concentrations.length = n + 1
      ∧ s.concentrations.get? 0 = some init
      ∧ ∀ i, 1 ≤ i → i ≤ n →
          s.concentrations.get? i =
            (s.concentrations.get? (i - 1)).map (fun c => c / f) := by
  unfold serial_dilution
  rw [if_neg (not_le.mpr hf), if_neg (not_le.mpr ht), if_neg htz]
  refine ⟨rfl, ?_⟩
  intro s hs
  rw [Except.ok.injEq] at hs
  subst hs
  refine ⟨by simp [serialConcs, serialConcsAux_length], rfl, ?_⟩
  intro i hi1 hin
  obtain ⟨j, rfl⟩ : ∃ j, i = j + 1 := ⟨i - 1, by omega⟩
  rw [serialConcs_get init f n (j + 1) hin,
    serialConcs_get init f n ((j + 1) - 1) (by omega)]
  simp only [Nat.add_sub_cancel, Option.map_some']
  rw [pow_succ, ← div_div]

/-- Witness for claim C5 at
`serialDilute(100, factor=10, steps=5, transfer=100, tube=1000)`. -/
theorem serial_dilution_spec_w :
    (serial_dilution 100 10 5 100 1000 ("uM")).toOption.isSome = true :=
  (serial_dilution_spec 100 10 5 100 1000 ("uM") (by norm_num) (by norm_num)
    (by norm_num)).1

/-- Claim C10, counterexample: with a negative stock concentration
(the case the claim singles out), `factor = 2 > 1` and
`transfer_volume = 0 < 1000 = final_volume_per_tube` satisfy the
claim's conditions, yet the call raises `ZeroDivisionError` at
dilutions.py line 112 rather than succeeding. -/
theorem serial_dilution_neg_zero_transfer_cex :
    serial_dilution (-5) 2 3 0 1000 ("uM") = .error .zeroDivisionError
    ∧ (serial_dilution (-5) 2 3 0 1000 ("uM")).toOption.isSome ≠ true := by
  constructor
  · unfold serial_dilution
    rw [if_neg (by norm_num), if_neg (by norm_num), if_pos rfl]
  · unfold serial_dilution
    rw [if_neg (by norm_num), if_neg (by norm_num), if_pos rfl]
    simp [Except.toOption]

/-- Claim C10, amended: `serial_dilution` puts no constraint on the
initial concentration: for every rational initial concentration (zero
and negative included), once `factor > 1`,
`transfer_volume < final_volume_per_tube` and `transfer_volume ≠ 0`
(zero transfer volume crashes with `ZeroDivisionError` at
dilutions.py line 112 regardless of the concentration) the call
succeeds and returns the geometric sequence `initial / factor ^ i`. -/
theorem serial_dilution_no_conc_constraint (init f : ℚ) (n : ℕ) (tv fv : ℚ)
    (u : String) (hf : 1 < f) (ht : tv < fv) (htz : tv ≠ 0) :
    (serial_dilution init f n tv fv u).toOption.isSome = true
  ∧ ∀ s, serial_dilution init f n tv fv u = .ok s →
      ∀ i, i ≤ n → s.concentrations.get? i = some (init / f ^ i) := by
  unfold serial_dilution
  rw [if_neg (not_le.mpr hf), if_neg (not_le.mpr ht), if_neg htz]
  refine ⟨rfl, ?_⟩
  intro s hs
  rw [Except.ok.injEq] at hs
  subst hs
  intro i hin
  exact serialConcs_get init f n i hin

/-- Witness for claim C10 at a negative stock concentration. -/
theorem serial_dilution_no_conc_constraint_w :
    (serial_dilution (-5) 2 3 100 1000 ("uM")).toOption.isSome = true :=
  (serial_dilution_no_conc_constraint (-5) 2 3 100 1000 ("uM")
    (by norm_num) (by norm_num) (by norm_num)).1

/-! ## Claim theorems : master mix -/

/-- Claim C3: every master mix that `calculate_mastermix` returns has
per-reaction component volumes (water included) summing exactly to
the volume per reaction, and every component's total volume is its
per-reaction volume times `reactions * (1 + extra_percent/100)`. -/
theorem mastermix_components_sum (r : ℤ) (v e : ℚ) (p : String) (t : Bool)
    (mm : MasterMix) (hmm : calculate_mastermix r v e p t = .ok mm) :
    (mm.components.map MMEntry.per_reaction).sum = mm.volume_per_reaction
    ∧ ∀ entry ∈ mm.components,
        entry.total_volume = entry.per_reaction * ((r : ℚ) * (1 + e / 100)) := by
  unfold calculate_mastermix at hmm
  cases hb : mmBase v p with
  | none => rw [hb] at hmm; cases hmm
  | some comps0 =>
    rw [hb] at hmm
    change mmFinish r v e t comps0 = .ok mm at hmm
    unfold mmFinish at hmm
    by_cases hw : v - mmUsedVolume (mmWithTemplate comps0 t) < 0
    · rw [if_pos hw] at hmm; cases hmm
    · rw [if_neg hw] at hmm
      rw [Except.ok.injEq] at hmm
      subst hmm
      constructor
      · simp only [List.map_append, List.map_map, List.sum_append, List.map_cons,
          List.map_nil, List.sum_cons, List.sum_nil, Function.comp_def]
        show mmUsedVolume (mmWithTemplate comps0 t)
          + (v - mmUsedVolume (mmWithTemplate comps0 t) + 0) = v
        ring
      · intro entry he
        rw [List.mem_map] at he
        obtain ⟨c, -, rfl⟩ := he
        rfl

/-- Witness for claim C3 at
`buildMasterMix(reactions=10, volume=25, extra=10, kind=taq)`; the
payload is recovered from the call itself. -/
theorem mastermix_components_sum_w :
    (((calculate_mastermix 10 25 10 ("taq") false).toOption.getD
        ⟨0, 0, [], 0, 0⟩).components.map MMEntry.per_reaction).sum =
      ((calculate_mastermix 10 25 10 ("taq") false).toOption.getD
        ⟨0, 0, [], 0, 0⟩).volume_per_reaction := by
  refine (mastermix_components_sum 10 25 10 ("taq") false _ ?_).1
  simp only [calculate_mastermix, mmBase, mmFinish, mmWithTemplate, mmUsedVolume]
  norm_num
  rfl

/-- Claim C4: `calculate_mastermix` rejects every polymerase kind
outside the closed enumeration (`"taq"` — the spec's `standard` — and
`"high_fidelity"`) with the unknown-kind `ValueError`; for a known
kind it fails with the over-budget `ValueError` exactly when the
fixed and fractional component volumes exceed the reaction volume
(residual water negative), and succeeds otherwise — there is no other
failure mode. -/
theorem mastermix_failure_modes (r : ℤ) (v e : ℚ) (p : String) (t : Bool) :
    (¬(p = "taq" ∨ p = "high_fidelity") →
      calculate_mastermix r v e p t =
        .error (.valueError ("Unknown polymerase type: " ++ p)))
  ∧ ∀ comps0, mmBase v p = some comps0 →
      ((calculate_mastermix r v e p t =
          .error (.valueError ("Component volumes exceed reaction volume")))
        ↔ v - mmUsedVolume (mmWithTemplate comps0 t) < 0)
      ∧ ((∃ mm, calculate_mastermix r v e p t = .ok mm)
        ↔ 0 ≤ v - mmUsedVolume (mmWithTemplate comps0 t)) := by
  constructor
  · intro hp
    have hb : mmBase v p = none := by
      unfold mmBase
      rw [if_neg (fun h => hp (Or.inl h)), if_neg (fun h => hp (Or.inr h))]
    unfold calculate_mastermix
    rw [hb]
  · intro comps0 hb
    unfold calculate_mastermix
    rw [hb]
    show (mmFinish r v e t comps0 = _ ↔ _) ∧ ((∃ mm, mmFinish r v e t comps0 = _) ↔ _)
    unfold mmFinish
    by_cases hw : v - mmUsedVolume (mmWithTemplate comps0 t) < 0
    · rw [if_pos hw]
      refine ⟨⟨fun _ => hw, fun _ => rfl⟩, ?_, ?_⟩
      · rintro ⟨mm, hmm⟩; cases hmm
      · intro h; linarith
    · rw [if_neg hw]
      refine ⟨⟨fun h => ?_, fun h => absurd h hw⟩, fun _ => not_lt.mp hw,
        fun _ => ⟨_, rfl⟩⟩
      cases h

/-- Witness for claim C4: a zero reaction volume with the fixed
0.25 µL Taq component is over budget. -/
theorem mastermix_failure_modes_w :
    calculate_mastermix 1 0 10 ("taq") false =
      .error (.valueError ("Component volumes exceed reaction volume")) := by
  have h := (mastermix_failure_modes 1 0 10 ("taq") false).2
  have hb : mmBase 0 ("taq") = some [("10X Buffer", 0 * 0.1, "1X"),
      ("dNTPs (10 mM each)", 0 * 0.02, "200 µM"),
      ("Forward Primer (10 µM)", 0 * 0.02, "0.2 µM"),
      ("Reverse Primer (10 µM)", 0 * 0.02, "0.2 µM"),
      ("Taq Polymerase (5 U/µL)", 0.25, "1.25 U"),
      ("MgCl2 (25 mM)", 0 * 0.06, "1.5 mM")] := by
    simp [mmBase]
  exact ((h _ hb).1).mpr
    (by norm_num [mmUsedVolume, mmWithTemplate])

/-! ## Claim theorems : buffers -/

lemma addScaled_map (l : List (String × BufferComponent)) (a b : ℚ) :
    addScaled
        (l.map (fun c => (c.1, (⟨c.2.amount * a, c.2.unit⟩ : ScaledComponent))))
        (l.map (fun c => (c.1, (⟨c.2.amount * b, c.2.unit⟩ : ScaledComponent)))) =
      l.map (fun c => (c.1, (⟨c.2.amount * (a + b), c.2.unit⟩ : ScaledComponent))) := by
  induction l with
  | nil => rfl
  | cons c cs ih =>
    simp only [List.map_cons, addScaled, List.zipWith_cons_cons] at *
    rw [ih, mul_add]

/-- Claim C7: `get_buffer_recipe` is a case-insensitive lookup over a
catalog of exactly ten recipes: any name whose upper-cased form is a
catalog key yields that recipe, and any other name yields the
`ValueError` (the spec's `UnknownBuffer`) whose message appends the
joined list of all ten valid names. -/
theorem get_buffer_recipe_spec :
    COMMON_BUFFERS.length = 10
  ∧ String.intercalate (", ") (COMMON_BUFFERS.map Prod.fst) =
      ("PBS, PBS_10X, TBS, TBS_10X, TBST, TE, TAE_50X, TBE_10X, RIPA, LOADING_6X")
  ∧ ∀ buffer_name : String,
      (∃ r, COMMON_BUFFERS.lookup buffer_name.toUpper = some r
          ∧ get_buffer_recipe buffer_name = .ok r)
    ∨ (COMMON_BUFFERS.lookup buffer_name.toUpper = none
        ∧ get_buffer_recipe buffer_name =
          .error (.valueError ("Unknown buffer: " ++ buffer_name
            ++ ". Available buffers: "
            ++ String.intercalate (", ") (COMMON_BUFFERS.map Prod.fst)))) := by
  refine ⟨rfl, rfl, ?_⟩
  intro buffer_name
  cases h : COMMON_BUFFERS.lookup buffer_name.toUpper with
  | some r =>
    refine Or.inl ⟨r, rfl, ?_⟩
    unfold get_buffer_recipe
    rw [h]
  | none =>
    refine Or.inr ⟨rfl, ?_⟩
    unfold get_buffer_recipe
    rw [h]

/-- Claim C8: `BufferRecipe.scale` is linear — scaling a recipe to
`a + b` liters equals the component-wise sum of the scalings to `a`
and to `b` — each scaled amount is the per-liter amount times the
target volume, and `scale` is a total function: it cannot fail for
any volume, zero included. -/
theorem buffer_scale_linear (r : BufferRecipe) (a b : ℚ)
    (_ha : 0 ≤ a) (_hb : 0 ≤ b) :
    r.scale (a + b) = addScaled (r.scale a) (r.scale b)
  ∧ ∀ entry ∈ r.scale (a + b), ∃ c ∈ r.components,
      entry = (c.1, (⟨c.2.amount * (a + b), c.2.unit⟩ : ScaledComponent)) := by
  constructor
  · unfold BufferRecipe.scale
    exact (addScaled_map r.components a b).symm
  · intro entry he
    unfold BufferRecipe.scale at he
    rw [List.mem_map] at he
    obtain ⟨c, hc, rfl⟩ := he
    exact ⟨c, hc, rfl⟩

/-- Witness for claim C8 on the PBS recipe with volumes 1/4 + 1/4. -/
theorem buffer_scale_linear_w :
    ((COMMON_BUFFERS.lookup ("PBS")).getD ⟨"", [], none, []⟩).scale (1/4 + 1/4) =
      addScaled
        (((COMMON_BUFFERS.lookup ("PBS")).getD ⟨"", [], none, []⟩).scale (1/4))
        (((COMMON_BUFFERS.lookup ("PBS")).getD ⟨"", [], none, []⟩).scale (1/4)) :=
  (buffer_scale_linear ((COMMON_BUFFERS.lookup ("PBS")).getD ⟨"", [], none, []⟩)
    (1/4) (1/4) (by norm_num) (by norm_num)).1

/-! ## Claim theorems : plate layout -/

lemma exceptPure {α : Type} (a : α) :
    (pure a : Except PyError α) = .ok a := rfl

lemma exceptBind_ok {α β : Type} (a : α) (f : α → Except PyError β) :
    (Except.ok a : Except PyError α) >>= f = f a := rfl

lemma exceptBind_error {α β : Type} (e : PyError) (f : α → Except PyError β) :
    (Except.error e : Except PyError α) >>= f = .error e := rfl

lemma exceptMap_ok {α β : Type} (f : α → β) (a : α) :
    (Except.ok a : Except PyError α).map f = .ok (f a) := rfl

lemma exceptMap_error {α β : Type} (f : α → β) (e : PyError) :
    (Except.error e : Except PyError α).map f = .error e := rfl

lemma exceptMap_eq_ok {α β : Type} (f : α → β) (x : Except PyError α) (b : β)
    (h : x.map f = .ok b) : ∃ a, x = .ok a ∧ f a = b := by
  cases x with
  | error e => rw [exceptMap_error] at h; cases h
  | ok a =>
    rw [exceptMap_ok, Except.ok.injEq] at h
    exact ⟨a, rfl, h⟩

lemma wrapRow_assignments (rows : ℕ) (st : AllocState) :
    (wrapRow rows st).assignments = st.assignments := by
  unfold wrapRow
  split_ifs <;> rfl

lemma dictInsert_length (k : String) (v : WellInfo)
    (l : List (String × WellInfo)) :
    (dictInsert k v l).length ≤ l.length + 1 := by
  induction l with
  | nil => simp [dictInsert]
  | cons p rest ih =>
    obtain ⟨k', v'⟩ := p
    simp only [dictInsert, List.length_cons]
    split_ifs with h
    · simp only [List.length_cons]
      omega
    · simp only [List.length_cons]
      omega

lemma placeSample_length (rows cols : ℕ) (labels : List Char)
    (sample gene : String) (rep : ℕ) (st st' : AllocState)
    (h : placeSample rows cols labels sample gene rep st = .ok st') :
    st'.assignments.length ≤ st.assignments.length + 1 := by
  unfold placeSample at h
  split_ifs at h
  rw [Except.ok.injEq] at h
  subst h
  rw [wrapRow_assignments]
  exact dictInsert_length _ _ _

lemma placeNtc_length (rows cols : ℕ) (labels : List Char)
    (gene : String) (rep : ℕ) (st st' : AllocState)
    (h : placeNtc rows cols labels gene rep st = .ok st') :
    st'.assignments.length ≤ st.assignments.length + 1 := by
  unfold placeNtc at h
  split_ifs at h
  rw [Except.ok.injEq] at h
  subst h
  rw [wrapRow_assignments]
  exact dictInsert_length _ _ _

lemma foldlM_assignments_le {α : Type}
    (f : AllocState → α → Except PyError AllocState) (k : ℕ)
    (hf : ∀ st a st', f st a = .ok st' →
      st'.assignments.length ≤ st.assignments.length + k) :
    ∀ (l : List α) (st st' : AllocState), l.foldlM f st = .ok st' →
      st'.assignments.length ≤ st.assignments.length + l.length * k := by
  intro l
  induction l with
  | nil =>
    intro st st' h
    rw [List.foldlM_nil, exceptPure, Except.ok.injEq] at h
    subst h
    simp
  | cons a as ih =>
    intro st st' h
    rw [List.foldlM_cons] at h
    cases hfa : f st a with
    | error e =>
      rw [hfa, exceptBind_error] at h
      cases h
    | ok st1 =>
      rw [hfa, exceptBind_ok] at h
      have h1 := hf st a st1 hfa
      have h2 := ih st1 st' h
      simp only [List.length_cons, Nat.succ_mul]
      omega

lemma placeSampleBlock_length (rows cols : ℕ) (labels : List Char)
    (gene : String) (replicates : ℕ) (st : AllocState) (sample : String)
    (st' : AllocState)
    (h : placeSampleBlock rows cols labels gene replicates st sample = .ok st') :
    st'.assignments.length ≤ st.assignments.length + replicates := by
  unfold placeSampleBlock at h
  have := foldlM_assignments_le
    (fun s rep => placeSample rows cols labels sample gene rep s) 1
    (fun s a s' ha => placeSample_length rows cols labels sample gene a s s' ha)
    (List.range replicates) st st' h
  simpa using this

lemma ntcBlock_length (rows cols : ℕ) (labels : List Char) (gene : String)
    (replicates : ℕ) (include_ntc : Bool) (st st' : AllocState)
    (h : ntcBlock rows cols labels gene replicates include_ntc st = .ok st') :
    st'.assignments.length ≤ st.assignments.length
      + (if include_ntc then replicates else 0) := by
  unfold ntcBlock at h
  cases include_ntc with
  | false =>
    rw [if_neg (by simp)] at h
    rw [exceptPure, Except.ok.injEq] at h
    subst h
    simp
  | true =>
    rw [if_pos rfl] at h
    have := foldlM_assignments_le
      (fun s rep => placeNtc rows cols labels gene rep s) 1
      (fun s a s' ha => placeNtc_length rows cols labels gene a s s' ha)
      (List.range replicates) st st' h
    simpa using this

lemma placeGene_length (rows cols : ℕ) (labels : List Char)
    (samples : List String) (replicates : ℕ) (include_ntc : Bool)
    (st : AllocState) (gene : String) (st' : AllocState)
    (h : placeGene rows cols labels samples replicates include_ntc st gene
      = .ok st') :
    st'.assignments.length ≤ st.assignments.length
      + (samples.length * replicates
          + (if include_ntc then replicates else 0)) := by
  unfold placeGene at h
  cases h1 : samples.foldlM (placeSampleBlock rows cols labels gene replicates) st with
  | error e =>
    rw [h1, exceptBind_error] at h
    cases h
  | ok st1 =>
    rw [h1, exceptBind_ok] at h
    have hb1 := foldlM_assignments_le
      (placeSampleBlock rows cols labels gene replicates) replicates
      (fun s a s' ha =>
        placeSampleBlock_length rows cols labels gene replicates s a s' ha)
      samples st st1 h1
    cases h2 : ntcBlock rows cols labels gene replicates include_ntc st1 with
    | error e =>
      rw [h2, exceptBind_error] at h
      cases h
    | ok st2 =>
      rw [h2, exceptBind_ok, exceptPure, Except.ok.injEq] at h
      subst h
      have hb2 := ntcBlock_length rows cols labels gene replicates include_ntc
        st1 st2 h2
      dsimp only
      omega

/-- Claim C6: with a supported plate size, a request needing more
wells than the plate has fails with the capacity `ValueError` (the
spec's `PlateCapacityExceeded`) carrying the needed and available
counts — produced by the pre-check, before any well is assigned, and
no layout is returned; and any successfully returned layout uses at
most `rows * cols` wells. -/
theorem plate_alloc_capacity (samples genes : List String) (replicates : ℕ)
    (include_ntc : Bool) (plate_size rows cols : ℕ) (labels : List Char)
    (hdim : plateDims plate_size = some (rows, cols, labels)) :
    (totalWellsNeeded samples genes replicates include_ntc > rows * cols →
      generate_qpcr_plate_layout samples genes replicates include_ntc plate_size
        = .error (.valueError (capacityMsg
            (totalWellsNeeded samples genes replicates include_ntc)
            (rows * cols))))
  ∧ ∀ pl,
      generate_qpcr_plate_layout samples genes replicates include_ntc plate_size
        = .ok pl →
      pl.wells_used ≤ rows * cols ∧ pl.wells_available = rows * cols := by
  constructor
  · intro hover
    unfold generate_qpcr_plate_layout
    rw [hdim]
    show plateAlloc samples genes replicates include_ntc rows cols labels = _
    unfold plateAlloc
    rw [if_pos hover]
  · intro pl hpl
    unfold generate_qpcr_plate_layout at hpl
    rw [hdim] at hpl
    change plateAlloc samples genes replicates include_ntc rows cols labels
      = .ok pl at hpl
    unfold plateAlloc at hpl
    split_ifs at hpl with hover
    obtain ⟨st, hfold, rfl⟩ := exceptMap_eq_ok _ _ _ hpl
    refine ⟨?_, rfl⟩
    show st.assignments.length ≤ rows * cols
    have hb := foldlM_assignments_le
      (placeGene rows cols labels samples replicates include_ntc)
      (samples.length * replicates + (if include_ntc then replicates else 0))
      (fun s a s' ha =>
        placeGene_length rows cols labels samples replicates include_ntc
          s a s' ha)
      genes ⟨0, 0, []⟩ st hfold
    have hcap : totalWellsNeeded samples genes replicates include_ntc
        ≤ rows * cols := not_lt.mp hover
    unfold totalWellsNeeded at hcap
    rw [Nat.mul_comm] at hcap
    simp only [List.length_nil, Nat.zero_add] at hb
    exact le_trans hb hcap

/-- Witness for claim C6 at the spec's scenario 6: 20 samples, 10
genes, 3 replicates, no NTC on a 96-well plate needs 600 > 96
wells. -/
theorem plate_alloc_capacity_w :
    generate_qpcr_plate_layout
      (List.map (fun i => "S" ++ toString i) (List.range 20))
      (List.map (fun i => "G" ++ toString i) (List.range 10)) 3 false 96 =
    .error (.valueError (capacityMsg
      (totalWellsNeeded
        (List.map (fun i => "S" ++ toString i) (List.range 20))
        (List.map (fun i => "G" ++ toString i) (List.range 10)) 3 false)
      (8 * 12))) :=
  (plate_alloc_capacity
    (List.map (fun i => "S" ++ toString i) (List.range 20))
    (List.map (fun i => "G" ++ toString i) (List.range 10)) 3 false 96 8 12
    ['A', 'B', 'C', 'D', 'E', 'F', 'G', 'H'] rfl).1 (by decide)

/-- Claim C1 (code bug): a reachable input on which the column cursor
passes `cols` inside the NTC block — no samples, thirteen genes, one
replicate, NTC on, 96-well plate (capacity pre-check passes:
13 ≤ 96) — makes the call fail with Python's `IndexError` from the
unguarded `layout[current_row][current_col]` write, not with the
`PlateCapacityExceeded` `ValueError` that the sample block raises and
the claim requires for both blocks. -/
theorem plate_ntc_index_error :
    generate_qpcr_plate_layout []
      ["G1", "G2", "G3", "G4", "G5", "G6", "G7", "G8", "G9", "G10", "G11",
       "G12", "G13"] 1 true 96 = .error .indexError
    ∧ PyError.indexError ≠ PyError.valueError ("Exceeded plate capacity") := by
  constructor
  · decide
  · intro h
    cases h

end Labrat
